import Mathlib

/- Verification of the PatchPilot orchestration core against its design
   specification.  The definitions below are a shallow embedding of
   src/backend/src/orchestrator.py and src/backend/src/agent.py: the external
   collaborators (the SSM client, Step Functions, DynamoDB) are passed in as
   explicit function parameters, and the DynamoDB table is threaded as
   explicit state.  Python floats are modelled as rationals and Python ints
   as naturals. -/

/-- One entry of the InstanceInformationList returned by
ssm.describe_instance_information for a device (the health probe response). -/
structure InstanceInfo where
  pingStatus : String
  agentVersion : Option String
deriving DecidableEq

/-- Per-device record written into the device_health dictionary by
check_batch_health. -/
structure DeviceHealth where
  status : String
  ping_status : Option String
  agent_version : Option String
  error : Option String
deriving DecidableEq

/-- Assignment into a Python dictionary keyed by device id: a later
assignment to the same key replaces the earlier value. -/
def dictInsert {α : Type} (f : String → Option α) (k : String) (v : α) :
    String → Option α :=
  fun x => if x = k then some v else f x

/-- Loop state of the per-device loop in check_batch_health: the healthy and
unhealthy counters and the device_health dictionary. -/
structure HealthAcc where
  healthy : Nat
  unhealthy : Nat
  device_health : String → Option DeviceHealth

/-- One iteration of the device loop of check_batch_health
(orchestrator.py lines 160-199).  The probe either raises (error), returns an
empty InstanceInformationList, or returns a list whose first entry is
inspected; only PingStatus Online counts as healthy. -/
def healthStep (describe : String → Except String (List InstanceInfo))
    (acc : HealthAcc) (device_id : String) : HealthAcc :=
  match describe device_id with
  | .ok (inst :: _) =>
      let is_healthy := inst.pingStatus == "Online"
      { healthy := if is_healthy then acc.healthy + 1 else acc.healthy
        unhealthy := if is_healthy then acc.unhealthy else acc.unhealthy + 1
        device_health := dictInsert acc.device_health device_id
          { status := if is_healthy then "healthy" else "unhealthy"
            ping_status := some inst.pingStatus
            agent_version := some (inst.agentVersion.getD "unknown")
            error := none } }
  | .ok [] =>
      { healthy := acc.healthy
        unhealthy := acc.unhealthy + 1
        device_health := dictInsert acc.device_health device_id
          { status := "unknown", ping_status := none, agent_version := none
            error := some "Device not found" } }
  | .error e =>
      { healthy := acc.healthy
        unhealthy := acc.unhealthy + 1
        device_health := dictInsert acc.device_health device_id
          { status := "error", ping_status := none, agent_version := none
            error := some e } }

/-- Result dictionary returned by check_batch_health. -/
structure HealthResults where
  batch_id : String
  device_count : Nat
  healthy : Nat
  unhealthy : Nat
  device_health : String → Option DeviceHealth
  health_percent : ℚ
  proceed : Bool

/-- check_batch_health (orchestrator.py lines 145-213): probes every device,
counts healthy/unhealthy, computes
health_percent = healthy / len(device_ids) * 100 when device_ids is nonempty
and 0 otherwise, and sets proceed to health_percent >= threshold. -/
def check_batch_health (describe : String → Except String (List InstanceInfo))
    (batch_id : String) (device_ids : List String)
    (health_threshold_percent : ℚ) : HealthResults :=
  let acc := device_ids.foldl (healthStep describe) ⟨0, 0, fun _ => none⟩
  let health_percent : ℚ :=
    if device_ids.isEmpty then 0
    else (acc.healthy : ℚ) / (device_ids.length : ℚ) * 100
  { batch_id := batch_id
    device_count := device_ids.length
    healthy := acc.healthy
    unhealthy := acc.unhealthy
    device_health := acc.device_health
    health_percent := health_percent
    proceed := decide (health_threshold_percent ≤ health_percent) }

/-- The classification the device loop applies: a probe response counts the
device healthy exactly when the instance list is nonempty and its first entry
reports PingStatus Online (orchestrator.py lines 172-185). -/
def probeHealthy (r : Except String (List InstanceInfo)) : Bool :=
  match r with
  | .ok (inst :: _) => inst.pingStatus == "Online"
  | .ok [] => false
  | .error _ => false

theorem healthStep_healthy (describe : String → Except String (List InstanceInfo))
    (acc : HealthAcc) (d : String) :
    (healthStep describe acc d).healthy =
      acc.healthy + (if probeHealthy (describe d) then 1 else 0) := by
  unfold healthStep probeHealthy
  cases h : describe d with
  | error e => simp
  | ok l =>
    cases l with
    | nil => simp
    | cons inst rest =>
      by_cases hping : (inst.pingStatus == "Online") = true <;> simp [hping]

theorem healthStep_unhealthy (describe : String → Except String (List InstanceInfo))
    (acc : HealthAcc) (d : String) :
    (healthStep describe acc d).unhealthy =
      acc.unhealthy + (if probeHealthy (describe d) then 0 else 1) := by
  unfold healthStep probeHealthy
  cases h : describe d with
  | error e => simp
  | ok l =>
    cases l with
    | nil => simp
    | cons inst rest =>
      by_cases hping : (inst.pingStatus == "Online") = true <;> simp [hping]

theorem healthStep_device_health_isSome
    (describe : String → Except String (List InstanceInfo))
    (acc : HealthAcc) (d x : String)
    (h : x = d ∨ (acc.device_health x).isSome = true) :
    ((healthStep describe acc d).device_health x).isSome = true := by
  unfold healthStep
  cases hd : describe d with
  | error e =>
    rcases h with h | h
    · simp [dictInsert, h]
    · by_cases hx : x = d <;> simp [dictInsert, hx, h]
  | ok l =>
    cases l with
    | nil =>
      rcases h with h | h
      · simp [dictInsert, h]
      · by_cases hx : x = d <;> simp [dictInsert, hx, h]
    | cons inst rest =>
      rcases h with h | h
      · simp [dictInsert, h]
      · by_cases hx : x = d <;> simp [dictInsert, hx, h]

theorem health_foldl_healthy (describe : String → Except String (List InstanceInfo))
    (ids : List String) (acc : HealthAcc) :
    (ids.foldl (healthStep describe) acc).healthy =
      acc.healthy + ids.countP (fun d => probeHealthy (describe d)) := by
  induction ids generalizing acc with
  | nil => simp
  | cons d rest ih =>
    rw [List.foldl_cons, ih, healthStep_healthy, List.countP_cons]
    by_cases h : probeHealthy (describe d) = true <;> simp [h] <;> omega

theorem health_foldl_unhealthy (describe : String → Except String (List InstanceInfo))
    (ids : List String) (acc : HealthAcc) :
    (ids.foldl (healthStep describe) acc).unhealthy =
      acc.unhealthy + ids.countP (fun d => ! probeHealthy (describe d)) := by
  induction ids generalizing acc with
  | nil => simp
  | cons d rest ih =>
    rw [List.foldl_cons, ih, healthStep_unhealthy, List.countP_cons]
    by_cases h : probeHealthy (describe d) = true <;> simp [h] <;> omega

theorem health_foldl_device_health
    (describe : String → Except String (List InstanceInfo))
    (ids : List String) (acc : HealthAcc) (x : String)
    (h : x ∈ ids ∨ (acc.device_health x).isSome = true) :
    ((ids.foldl (healthStep describe) acc).device_health x).isSome = true := by
  induction ids generalizing acc with
  | nil =>
    rcases h with h | h
    · exact absurd h (List.not_mem_nil x)
    · simpa using h
  | cons d rest ih =>
    rw [List.foldl_cons]
    rcases h with h | h
    · rcases List.mem_cons.mp h with h | h
      · exact ih _ (Or.inr (healthStep_device_health_isSome describe acc d x (Or.inl h)))
      · exact ih _ (Or.inl h)
    · exact ih _ (Or.inr (healthStep_device_health_isSome describe acc d x (Or.inr h)))

/-- Claim C1 as stated is false on the code: check_batch_health on an empty
device list returns health_percent = 0 (orchestrator.py line 202), not 100,
and with the default threshold 95 the proceed flag is false, so the verdict
is rollback rather than proceed. -/
theorem C1_counterexample :
    (check_batch_health (fun _ => Except.ok []) "batch-1" [] 95).health_percent = 0 ∧
    (check_batch_health (fun _ => Except.ok []) "batch-1" [] 95).proceed = false := by
  constructor
  · rfl
  · simp only [check_batch_health]
    norm_num

/-- Claim C1 amended: on an empty device list check_batch_health returns
health_percent = 0, and the proceed flag is true only when the threshold is
at most 0; for every positive threshold the verdict is rollback. -/
theorem C1_empty_stage_health (describe : String → Except String (List InstanceInfo))
    (batch_id : String) (t : ℚ) :
    (check_batch_health describe batch_id [] t).health_percent = 0 ∧
    ((check_batch_health describe batch_id [] t).proceed = true ↔ t ≤ 0) := by
  constructor
  · rfl
  · simp [check_batch_health]

/-- Claim C2: on a nonempty device list, check_batch_health sets proceed
exactly when health_percent is at least the threshold (inclusive comparison:
health_percent equal to the threshold yields proceed), and otherwise the
proceed flag is false, i.e. the verdict is rollback. -/
theorem C2_inclusive_threshold (describe : String → Except String (List InstanceInfo))
    (batch_id : String) (device_ids : List String) (t : ℚ)
    (_h : device_ids ≠ []) :
    ((check_batch_health describe batch_id device_ids t).proceed = true ↔
        t ≤ (check_batch_health describe batch_id device_ids t).health_percent) ∧
    ((check_batch_health describe batch_id device_ids t).health_percent = t →
        (check_batch_health describe batch_id device_ids t).proceed = true) ∧
    ((check_batch_health describe batch_id device_ids t).proceed = false ↔
        (check_batch_health describe batch_id device_ids t).health_percent < t) := by
  have hp : (check_batch_health describe batch_id device_ids t).proceed
      = decide (t ≤ (check_batch_health describe batch_id device_ids t).health_percent) := rfl
  refine ⟨?_, ?_, ?_⟩
  · rw [hp]; exact decide_eq_true_iff
  · intro he
    rw [hp, he]
    simp
  · rw [hp]
    simp [decide_eq_false_iff_not, not_le]

/-- Witness for C2 at a concrete input: one device probing Online against
threshold 95 gives health_percent 100 and an inclusive threshold verdict. -/
theorem C2_witness :
    (["dev-001"] : List String) ≠ [] ∧
    ((check_batch_health (fun _ => Except.ok [⟨"Online", some "2.4.0"⟩])
        "batch-1" ["dev-001"] 95).proceed = true ↔
      95 ≤ (check_batch_health (fun _ => Except.ok [⟨"Online", some "2.4.0"⟩])
        "batch-1" ["dev-001"] 95).health_percent) :=
  ⟨by decide,
    (C2_inclusive_threshold (fun _ => Except.ok [⟨"Online", some "2.4.0"⟩])
      "batch-1" ["dev-001"] 95 (by decide)).1⟩

/-- Claim C3: on a nonempty device list check_batch_health records a probe
result for every device, counts a device healthy exactly when its probe
response has a nonempty instance list whose first entry reports PingStatus
Online, counts every other device (no response, probe error, or a
non-Online status) as unhealthy, and returns
health_percent = healthy / device_count * 100. -/
theorem C3_probe_classification (describe : String → Except String (List InstanceInfo))
    (batch_id : String) (device_ids : List String) (t : ℚ)
    (h : device_ids ≠ []) :
    (∀ d ∈ device_ids,
        ((check_batch_health describe batch_id device_ids t).device_health d).isSome
          = true) ∧
    (check_batch_health describe batch_id device_ids t).healthy =
        device_ids.countP (fun d => probeHealthy (describe d)) ∧
    (check_batch_health describe batch_id device_ids t).unhealthy =
        device_ids.countP (fun d => ! probeHealthy (describe d)) ∧
    (check_batch_health describe batch_id device_ids t).health_percent =
        ((check_batch_health describe batch_id device_ids t).healthy : ℚ) /
          (device_ids.length : ℚ) * 100 := by
  have hne : device_ids.isEmpty = false := by
    cases device_ids with
    | nil => exact absurd rfl h
    | cons a l => rfl
  refine ⟨?_, ?_, ?_, ?_⟩
  · intro d hd
    have hs : ((device_ids.foldl (healthStep describe)
        ⟨0, 0, fun _ => none⟩).device_health d).isSome = true :=
      health_foldl_device_health describe device_ids _ d (Or.inl hd)
    simpa [check_batch_health] using hs
  · have hh := health_foldl_healthy describe device_ids ⟨0, 0, fun _ => none⟩
    simpa [check_batch_health] using hh
  · have hu := health_foldl_unhealthy describe device_ids ⟨0, 0, fun _ => none⟩
    simpa [check_batch_health] using hu
  · simp [check_batch_health, hne]

/-- Witness for C3 at a concrete input: two devices, one probing Online and
one raising a probe error; the healthy counter equals the count of
Online-probing devices. -/
theorem C3_witness :
    (["dev-001", "dev-002"] : List String) ≠ [] ∧
    (check_batch_health
        (fun d => if d = "dev-001" then Except.ok [⟨"Online", some "2.4.0"⟩]
          else Except.error "probe failed")
        "batch-1" ["dev-001", "dev-002"] 95).healthy =
      (["dev-001", "dev-002"] : List String).countP
        (fun d => probeHealthy
          (if d = "dev-001" then Except.ok [⟨"Online", some "2.4.0"⟩]
            else Except.error "probe failed")) :=
  ⟨by decide,
    (C3_probe_classification
      (fun d => if d = "dev-001" then Except.ok [⟨"Online", some "2.4.0"⟩]
        else Except.error "probe failed")
      "batch-1" ["dev-001", "dev-002"] 95 (by decide)).2.1⟩

/-- Per-device record written into device_results by execute_canary_batch
and rollback_batch: a status string plus either the command id of the
dispatched SSM command or the caught error message. -/
structure DeviceResult where
  status : String
  command_id : Option String
  error : Option String
deriving DecidableEq

/-- The computation-dependent fields of the batch record stored by the
put_item calls of execute_canary_batch and rollback_batch. -/
structure BatchRecord where
  device_count : Nat
  successful : Nat
  failed : Nat
  device_results : String → Option DeviceResult

/-- An item of the orchestrator's DynamoDB table: a batch execution or
rollback record, or the execution metadata record written by
start_execution. -/
inductive Item where
  | batch (record : BatchRecord)
  | execMeta (plan_id ticket_id client_id status execution_arn : String)

/-- The orchestrator's DynamoDB table, keyed by partition key and sort key. -/
def Table : Type := String × String → Option Item

/-- put_item stores an item under its key, replacing any item already stored
under the same key (DynamoDB put semantics). -/
def put_item (t : Table) (pk sk : String) (item : Item) : Table :=
  fun k => if k = (pk, sk) then some item else t k

/-- Loop state of the per-device loops of execute_canary_batch and
rollback_batch. -/
structure DispatchAcc where
  successful : Nat
  failed : Nat
  device_results : String → Option DeviceResult

/-- One iteration of the device loop shared in shape by execute_canary_batch
(orchestrator.py lines 92-124, statuses executing/failed) and rollback_batch
(lines 232-264, statuses rolling_back/rollback_failed): ssm send_command
either returns a command id, or raises and the exception is caught, the
device recorded with the failure status, and the loop continues with the
next device. -/
def dispatchStep (ok_status fail_status : String)
    (send_command : String → Except String String)
    (acc : DispatchAcc) (device_id : String) : DispatchAcc :=
  match send_command device_id with
  | .ok command_id =>
      { successful := acc.successful + 1
        failed := acc.failed
        device_results := dictInsert acc.device_results device_id
          { status := ok_status, command_id := some command_id, error := none } }
  | .error e =>
      { successful := acc.successful
        failed := acc.failed + 1
        device_results := dictInsert acc.device_results device_id
          { status := fail_status, command_id := none, error := some e } }

/-- Result dictionary returned by execute_canary_batch and rollback_batch. -/
structure BatchResults where
  batch_id : String
  device_count : Nat
  successful : Nat
  failed : Nat
  device_results : String → Option DeviceResult

/-- execute_canary_batch (orchestrator.py lines 78-139): dispatches the patch
command to every device, then stores the batch record under key
(BATCH#batch_id, EXECUTION). -/
def execute_canary_batch (send_command : String → Except String String)
    (table : Table) (batch_id : String) (device_ids : List String) :
    BatchResults × Table :=
  let acc := device_ids.foldl (dispatchStep "executing" "failed" send_command)
    ⟨0, 0, fun _ => none⟩
  ({ batch_id := batch_id
     device_count := device_ids.length
     successful := acc.successful
     failed := acc.failed
     device_results := acc.device_results },
   put_item table ("BATCH#" ++ batch_id) "EXECUTION"
     (.batch ⟨device_ids.length, acc.successful, acc.failed, acc.device_results⟩))

/-- rollback_batch (orchestrator.py lines 219-279): dispatches the rollback
command to every device, then stores the rollback record under key
(BATCH#batch_id, ROLLBACK). -/
def rollback_batch (send_command : String → Except String String)
    (table : Table) (batch_id : String) (device_ids : List String) :
    BatchResults × Table :=
  let acc := device_ids.foldl
    (dispatchStep "rolling_back" "rollback_failed" send_command)
    ⟨0, 0, fun _ => none⟩
  ({ batch_id := batch_id
     device_count := device_ids.length
     successful := acc.successful
     failed := acc.failed
     device_results := acc.device_results },
   put_item table ("BATCH#" ++ batch_id) "ROLLBACK"
     (.batch ⟨device_ids.length, acc.successful, acc.failed, acc.device_results⟩))

/-- A dispatch call failed exactly when send_command raised. -/
def dispatchFailed (r : Except String String) : Bool :=
  match r with
  | .ok _ => false
  | .error _ => true

theorem dispatchStep_successful (os fs : String)
    (sc : String → Except String String) (acc : DispatchAcc) (d : String) :
    (dispatchStep os fs sc acc d).successful =
      acc.successful + (if dispatchFailed (sc d) then 0 else 1) := by
  unfold dispatchStep dispatchFailed
  cases sc d <;> simp

theorem dispatchStep_failed (os fs : String)
    (sc : String → Except String String) (acc : DispatchAcc) (d : String) :
    (dispatchStep os fs sc acc d).failed =
      acc.failed + (if dispatchFailed (sc d) then 1 else 0) := by
  unfold dispatchStep dispatchFailed
  cases sc d <;> simp

theorem dispatch_foldl_successful (os fs : String)
    (sc : String → Except String String) (ids : List String) (acc : DispatchAcc) :
    (ids.foldl (dispatchStep os fs sc) acc).successful =
      acc.successful + ids.countP (fun d => ! dispatchFailed (sc d)) := by
  induction ids generalizing acc with
  | nil => simp
  | cons d rest ih =>
    rw [List.foldl_cons, ih, dispatchStep_successful, List.countP_cons]
    by_cases h : dispatchFailed (sc d) = true <;> simp [h] <;> omega

theorem dispatch_foldl_failed (os fs : String)
    (sc : String → Except String String) (ids : List String) (acc : DispatchAcc) :
    (ids.foldl (dispatchStep os fs sc) acc).failed =
      acc.failed + ids.countP (fun d => dispatchFailed (sc d)) := by
  induction ids generalizing acc with
  | nil => simp
  | cons d rest ih =>
    rw [List.foldl_cons, ih, dispatchStep_failed, List.countP_cons]
    by_cases h : dispatchFailed (sc d) = true <;> simp [h] <;> omega

theorem dispatchStep_results_isSome (os fs : String)
    (sc : String → Except String String) (acc : DispatchAcc) (d x : String)
    (h : x = d ∨ (acc.device_results x).isSome = true) :
    ((dispatchStep os fs sc acc d).device_results x).isSome = true := by
  unfold dispatchStep
  cases sc d with
  | ok c =>
    rcases h with h | h
    · simp [dictInsert, h]
    · by_cases hx : x = d <;> simp [dictInsert, hx, h]
  | error e =>
    rcases h with h | h
    · simp [dictInsert, h]
    · by_cases hx : x = d <;> simp [dictInsert, hx, h]

theorem dispatch_foldl_results_isSome (os fs : String)
    (sc : String → Except String String) (ids : List String) (acc : DispatchAcc)
    (x : String) (h : x ∈ ids ∨ (acc.device_results x).isSome = true) :
    ((ids.foldl (dispatchStep os fs sc) acc).device_results x).isSome = true := by
  induction ids generalizing acc with
  | nil =>
    rcases h with h | h
    · exact absurd h (List.not_mem_nil x)
    · simpa using h
  | cons d rest ih =>
    rw [List.foldl_cons]
    rcases h with h | h
    · rcases List.mem_cons.mp h with h | h
      · exact ih _ (Or.inr (dispatchStep_results_isSome os fs sc acc d x (Or.inl h)))
      · exact ih _ (Or.inl h)
    · exact ih _ (Or.inr (dispatchStep_results_isSome os fs sc acc d x (Or.inr h)))

theorem dispatch_foldl_results_not_mem (os fs : String)
    (sc : String → Except String String) (ids : List String) (acc : DispatchAcc)
    (x : String) (h : x ∉ ids) :
    (ids.foldl (dispatchStep os fs sc) acc).device_results x =
      acc.device_results x := by
  induction ids generalizing acc with
  | nil => rfl
  | cons d rest ih =>
    rw [List.foldl_cons, ih _ (fun hm => h (List.mem_cons_of_mem d hm))]
    have hxd : x ≠ d := fun he => h (he ▸ List.mem_cons_self d rest)
    unfold dispatchStep
    cases sc d <;> simp [dictInsert, hxd]

theorem dispatch_foldl_results_of_error (os fs : String)
    (sc : String → Except String String) (ids : List String) (acc : DispatchAcc)
    (d e : String) (hd : d ∈ ids) (he : sc d = .error e) :
    (ids.foldl (dispatchStep os fs sc) acc).device_results d =
      some { status := fs, command_id := none, error := some e } := by
  induction ids generalizing acc with
  | nil => exact absurd hd (List.not_mem_nil d)
  | cons x rest ih =>
    rw [List.foldl_cons]
    by_cases hr : d ∈ rest
    · exact ih _ hr
    · have hdx : d = x := by
        rcases List.mem_cons.mp hd with h | h
        · exact h
        · exact absurd h hr
      subst hdx
      rw [dispatch_foldl_results_not_mem os fs sc rest _ d hr]
      unfold dispatchStep
      rw [he]
      simp [dictInsert]

/-- Claim C4: in both execute_canary_batch and rollback_batch a dispatch
failure on one device never aborts the processing of the other devices: the
failing device is recorded in device_results with the failure status and its
error message, it is counted in the failed counter (which equals the number
of failing dispatches and is positive), every device of the list gets a
device_results entry, and both operations return a normal full-sized result
instead of raising. -/
theorem C4_per_device_isolation (send_command : String → Except String String)
    (table : Table) (batch_id : String) (device_ids : List String)
    (d e : String) (hd : d ∈ device_ids) (he : send_command d = .error e) :
    ((execute_canary_batch send_command table batch_id device_ids).1.device_results d
        = some { status := "failed", command_id := none, error := some e }) ∧
    ((rollback_batch send_command table batch_id device_ids).1.device_results d
        = some { status := "rollback_failed", command_id := none, error := some e }) ∧
    ((execute_canary_batch send_command table batch_id device_ids).1.failed
        = device_ids.countP (fun x => dispatchFailed (send_command x))) ∧
    ((rollback_batch send_command table batch_id device_ids).1.failed
        = device_ids.countP (fun x => dispatchFailed (send_command x))) ∧
    (0 < (execute_canary_batch send_command table batch_id device_ids).1.failed) ∧
    (∀ x ∈ device_ids,
        ((execute_canary_batch send_command table batch_id
            device_ids).1.device_results x).isSome = true) ∧
    (∀ x ∈ device_ids,
        ((rollback_batch send_command table batch_id
            device_ids).1.device_results x).isSome = true) ∧
    ((execute_canary_batch send_command table batch_id device_ids).1.device_count
        = device_ids.length) ∧
    ((rollback_batch send_command table batch_id device_ids).1.device_count
        = device_ids.length) := by
  have hcount : 0 < device_ids.countP (fun x => dispatchFailed (send_command x)) := by
    rw [List.countP_pos_iff]
    exact ⟨d, hd, by rw [he]; rfl⟩
  refine ⟨?_, ?_, ?_, ?_, ?_, ?_, ?_, rfl, rfl⟩
  · exact dispatch_foldl_results_of_error "executing" "failed" send_command
      device_ids _ d e hd he
  · exact dispatch_foldl_results_of_error "rolling_back" "rollback_failed"
      send_command device_ids _ d e hd he
  · have h := dispatch_foldl_failed "executing" "failed" send_command device_ids
      ⟨0, 0, fun _ => none⟩
    show (device_ids.foldl (dispatchStep "executing" "failed" send_command)
      ⟨0, 0, fun _ => none⟩).failed = _
    simpa using h
  · have h := dispatch_foldl_failed "rolling_back" "rollback_failed" send_command
      device_ids ⟨0, 0, fun _ => none⟩
    show (device_ids.foldl
      (dispatchStep "rolling_back" "rollback_failed" send_command)
      ⟨0, 0, fun _ => none⟩).failed = _
    simpa using h
  · have hf := dispatch_foldl_failed "executing" "failed" send_command device_ids
      ⟨0, 0, fun _ => none⟩
    simp at hf
    show 0 < (device_ids.foldl (dispatchStep "executing" "failed" send_command)
      ⟨0, 0, fun _ => none⟩).failed
    omega
  · intro x hx
    exact dispatch_foldl_results_isSome "executing" "failed" send_command
      device_ids _ x (Or.inl hx)
  · intro x hx
    exact dispatch_foldl_results_isSome "rolling_back" "rollback_failed"
      send_command device_ids _ x (Or.inl hx)

/-- Witness for C4 at a concrete input: two devices, the second one failing
to dispatch; the failing device is recorded as failed in both the execute
and the rollback results. -/
theorem C4_witness :
    ("dev-002" ∈ (["dev-001", "dev-002"] : List String)) ∧
    ((fun x => if x = "dev-001" then Except.ok "cmd-001"
        else (Except.error "dispatch refused" : Except String String)) "dev-002"
      = .error "dispatch refused") ∧
    ((execute_canary_batch
        (fun x => if x = "dev-001" then Except.ok "cmd-001"
          else (Except.error "dispatch refused" : Except String String))
        (fun _ => none) "canary" ["dev-001", "dev-002"]).1.device_results "dev-002"
      = some { status := "failed", command_id := none
               error := some "dispatch refused" }) :=
  ⟨by decide, rfl,
    (C4_per_device_isolation
      (fun x => if x = "dev-001" then Except.ok "cmd-001"
        else (Except.error "dispatch refused" : Except String String))
      (fun _ => none) "canary" ["dev-001", "dev-002"] "dev-002" "dispatch refused"
      (by decide) rfl).1⟩

theorem dispatchStep_total (os fs : String)
    (sc : String → Except String String) (acc : DispatchAcc) (d : String) :
    (dispatchStep os fs sc acc d).successful + (dispatchStep os fs sc acc d).failed
      = acc.successful + acc.failed + 1 := by
  unfold dispatchStep
  cases sc d <;> simp <;> omega

theorem dispatch_foldl_total (os fs : String)
    (sc : String → Except String String) (ids : List String) (acc : DispatchAcc) :
    (ids.foldl (dispatchStep os fs sc) acc).successful
        + (ids.foldl (dispatchStep os fs sc) acc).failed
      = acc.successful + acc.failed + ids.length := by
  induction ids generalizing acc with
  | nil => simp
  | cons d rest ih =>
    rw [List.foldl_cons, ih, dispatchStep_total]
    simp
    omega

theorem health_foldl_total (describe : String → Except String (List InstanceInfo))
    (ids : List String) (acc : HealthAcc) :
    (ids.foldl (healthStep describe) acc).healthy
        + (ids.foldl (healthStep describe) acc).unhealthy
      = acc.healthy + acc.unhealthy + ids.length := by
  induction ids generalizing acc with
  | nil => simp
  | cons d rest ih =>
    rw [List.foldl_cons, ih, healthStep_healthy, healthStep_unhealthy]
    by_cases h : probeHealthy (describe d) = true <;> simp [h] <;> omega

/-- Claim C9: each of execute_canary_batch, check_batch_health and
rollback_batch puts every device into exactly one of its two buckets, so the
two counters sum to device_count, and device_count equals the length of the
input device list. -/
theorem C9_counters_partition (send_command : String → Except String String)
    (describe : String → Except String (List InstanceInfo)) (table : Table)
    (batch_id : String) (device_ids : List String) (t : ℚ) :
    ((execute_canary_batch send_command table batch_id device_ids).1.successful
        + (execute_canary_batch send_command table batch_id device_ids).1.failed
      = (execute_canary_batch send_command table batch_id
          device_ids).1.device_count) ∧
    ((check_batch_health describe batch_id device_ids t).healthy
        + (check_batch_health describe batch_id device_ids t).unhealthy
      = (check_batch_health describe batch_id device_ids t).device_count) ∧
    ((rollback_batch send_command table batch_id device_ids).1.successful
        + (rollback_batch send_command table batch_id device_ids).1.failed
      = (rollback_batch send_command table batch_id device_ids).1.device_count) ∧
    ((execute_canary_batch send_command table batch_id device_ids).1.device_count
      = device_ids.length) ∧
    ((check_batch_health describe batch_id device_ids t).device_count
      = device_ids.length) ∧
    ((rollback_batch send_command table batch_id device_ids).1.device_count
      = device_ids.length) := by
  refine ⟨?_, ?_, ?_, rfl, rfl, rfl⟩
  · have h := dispatch_foldl_total "executing" "failed" send_command device_ids
      ⟨0, 0, fun _ => none⟩
    simp at h
    show (device_ids.foldl (dispatchStep "executing" "failed" send_command)
        ⟨0, 0, fun _ => none⟩).successful
      + (device_ids.foldl (dispatchStep "executing" "failed" send_command)
        ⟨0, 0, fun _ => none⟩).failed = device_ids.length
    omega
  · have h := health_foldl_total describe device_ids ⟨0, 0, fun _ => none⟩
    simp at h
    show (device_ids.foldl (healthStep describe)
        ⟨0, 0, fun _ => none⟩).healthy
      + (device_ids.foldl (healthStep describe)
        ⟨0, 0, fun _ => none⟩).unhealthy = device_ids.length
    omega
  · have h := dispatch_foldl_total "rolling_back" "rollback_failed" send_command
      device_ids ⟨0, 0, fun _ => none⟩
    simp at h
    show (device_ids.foldl
        (dispatchStep "rolling_back" "rollback_failed" send_command)
        ⟨0, 0, fun _ => none⟩).successful
      + (device_ids.foldl
        (dispatchStep "rolling_back" "rollback_failed" send_command)
        ⟨0, 0, fun _ => none⟩).failed = device_ids.length
    omega

/-- Dispatch environment in which every ssm send_command call succeeds with
a fixed command id. -/
def okSend : String → Except String String := fun _ => Except.ok "cmd-001"

/-- An initially empty DynamoDB table. -/
def emptyTable : Table := fun _ => none

/-- Claim C5 as stated is false on the code: rollback_batch persists its
record with put_item under the fixed key (BATCH#batch_id, ROLLBACK)
(orchestrator.py lines 267-277), so invoking it twice for the same stage
overwrites the first record.  After rolling back device dev-001 the table
holds a rollback record with device_count 1; after a second invocation for
the same batch with devices dev-001 and dev-002, every rollback record left
in the table has device_count 2 - the first record is gone. -/
theorem C5_counterexample :
    (∃ record,
        (rollback_batch okSend emptyTable "batch-1" ["dev-001"]).2
            ("BATCH#batch-1", "ROLLBACK") = some (.batch record) ∧
        record.device_count = 1) ∧
    (∀ k record,
        (rollback_batch okSend
              (rollback_batch okSend emptyTable "batch-1" ["dev-001"]).2
              "batch-1" ["dev-001", "dev-002"]).2 k = some (.batch record) →
        record.device_count = 2) := by
  constructor
  · exact ⟨_, rfl, rfl⟩
  · intro k record hk
    simp only [rollback_batch, put_item, emptyTable] at hk
    split at hk
    · rw [Option.some.injEq, Item.batch.injEq] at hk
      rw [← hk]
      rfl
    · exact absurd hk (by simp)

/-- Claim C5 amended: rollback_batch is safe to invoke more than once for
the same stage in that every invocation completes normally and leaves all
table entries other than its own key untouched, but each invocation writes
its record under the fixed key (BATCH#batch_id, ROLLBACK), so a repeated
invocation replaces the previously persisted rollback record with its own
record instead of appending a new one. -/
theorem C5_rollback_record_overwrite (send_command : String → Except String String)
    (table : Table) (batch_id : String) (ids1 ids2 : List String) :
    (∀ k, k ≠ ("BATCH#" ++ batch_id, "ROLLBACK") →
        (rollback_batch send_command
            (rollback_batch send_command table batch_id ids1).2
            batch_id ids2).2 k
          = (rollback_batch send_command table batch_id ids1).2 k) ∧
    (∃ record,
        (rollback_batch send_command
            (rollback_batch send_command table batch_id ids1).2
            batch_id ids2).2 ("BATCH#" ++ batch_id, "ROLLBACK")
          = some (.batch record) ∧
        record.device_count = ids2.length ∧
        record.successful =
          (rollback_batch send_command table batch_id ids2).1.successful ∧
        record.failed =
          (rollback_batch send_command table batch_id ids2).1.failed) := by
  constructor
  · intro k hk
    simp only [rollback_batch, put_item]
    rw [if_neg hk]
  · refine ⟨⟨ids2.length,
        (ids2.foldl (dispatchStep "rolling_back" "rollback_failed" send_command)
          ⟨0, 0, fun _ => none⟩).successful,
        (ids2.foldl (dispatchStep "rolling_back" "rollback_failed" send_command)
          ⟨0, 0, fun _ => none⟩).failed,
        (ids2.foldl (dispatchStep "rolling_back" "rollback_failed" send_command)
          ⟨0, 0, fun _ => none⟩).device_results⟩, ?_, rfl, rfl, rfl⟩
    simp [rollback_batch, put_item]

/-- The plan dictionary passed to start_execution: each field required by
the execution input (orchestrator.py lines 31-35) is either present or
missing, mirroring a Python dict whose missing-key subscript raises
KeyError. -/
structure PlanDict where
  canary_size : Option Nat
  batches : Option (List Nat)
  health_check_interval_minutes : Option Nat
  rollback_threshold_percent : Option ℚ
  estimated_duration_hours : Option ℚ

/-- Result dictionary returned by start_execution on success. -/
structure StartResult where
  status : String
  execution_arn : String
  plan_id : String
deriving DecidableEq

/-- The observable state start_execution can change: the executions started
on the external Step Functions service and the orchestrator's DynamoDB
table. -/
structure OrchState where
  started_executions : List (String × String)
  table : Table

/-- start_execution (orchestrator.py lines 22-76): builds the execution
input by subscripting the plan dict (raising KeyError on the first missing
required field, before any side effect), then starts the Step Functions
execution, then stores the execution record; any exception propagates to
the caller. -/
def start_execution (start_sfn : String → Except String String)
    (st : OrchState) (plan_id : String) (plan : PlanDict)
    (ticket_id client_id : String) : Except String StartResult × OrchState :=
  match plan.canary_size with
  | none => (.error "KeyError: canary_size", st)
  | some _ =>
  match plan.batches with
  | none => (.error "KeyError: batches", st)
  | some _ =>
  match plan.health_check_interval_minutes with
  | none => (.error "KeyError: health_check_interval_minutes", st)
  | some _ =>
  match plan.rollback_threshold_percent with
  | none => (.error "KeyError: rollback_threshold_percent", st)
  | some _ =>
  match plan.estimated_duration_hours with
  | none => (.error "KeyError: estimated_duration_hours", st)
  | some _ =>
  match start_sfn ("patch-run-" ++ plan_id) with
  | .error e => (.error e, st)
  | .ok execution_arn =>
      (.ok { status := "started", execution_arn := execution_arn
             plan_id := plan_id },
       { started_executions :=
           st.started_executions ++ [("patch-run-" ++ plan_id, execution_arn)]
         table := put_item st.table ("EXECUTION#" ++ execution_arn) "METADATA"
           (.execMeta plan_id ticket_id client_id "running" execution_arn) })

/-- Claim C6: for every plan dict missing one of the required fields,
start_execution raises to the caller and performs no side effect: no Step
Functions execution is started and no execution record is persisted - the
returned state is exactly the input state. -/
theorem C6_invalid_plan_no_side_effects (start_sfn : String → Except String String)
    (st : OrchState) (plan_id : String) (plan : PlanDict)
    (ticket_id client_id : String)
    (h : plan.canary_size = none ∨ plan.batches = none ∨
      plan.health_check_interval_minutes = none ∨
      plan.rollback_threshold_percent = none ∨
      plan.estimated_duration_hours = none) :
    (∃ e, (start_execution start_sfn st plan_id plan ticket_id client_id).1
        = Except.error e) ∧
    (start_execution start_sfn st plan_id plan ticket_id client_id).2 = st := by
  obtain ⟨c, b, hi, rt, ed⟩ := plan
  cases c <;> cases b <;> cases hi <;> cases rt <;> cases ed <;>
    simp_all [start_execution]

/-- Witness for C6 at a concrete input: a plan missing canary_size is
rejected with the state unchanged, even though the Step Functions
environment would have accepted the execution. -/
theorem C6_witness :
    (({ canary_size := none, batches := some [30, 30]
        health_check_interval_minutes := some 10
        rollback_threshold_percent := some 5
        estimated_duration_hours := some 6 } : PlanDict).canary_size = none ∨
      ({ canary_size := none, batches := some [30, 30]
         health_check_interval_minutes := some 10
         rollback_threshold_percent := some 5
         estimated_duration_hours := some 6 } : PlanDict).batches = none ∨
      ({ canary_size := none, batches := some [30, 30]
         health_check_interval_minutes := some 10
         rollback_threshold_percent := some 5
         estimated_duration_hours := some 6 } : PlanDict).health_check_interval_minutes = none ∨
      ({ canary_size := none, batches := some [30, 30]
         health_check_interval_minutes := some 10
         rollback_threshold_percent := some 5
         estimated_duration_hours := some 6 } : PlanDict).rollback_threshold_percent = none ∨
      ({ canary_size := none, batches := some [30, 30]
         health_check_interval_minutes := some 10
         rollback_threshold_percent := some 5
         estimated_duration_hours := some 6 } : PlanDict).estimated_duration_hours = none) ∧
    ((∃ e, (start_execution (fun name => Except.ok ("arn:" ++ name))
          ⟨[], emptyTable⟩ "PLAN-001"
          { canary_size := none, batches := some [30, 30]
            health_check_interval_minutes := some 10
            rollback_threshold_percent := some 5
            estimated_duration_hours := some 6 }
          "TICKET-001" "client-a").1 = Except.error e) ∧
      (start_execution (fun name => Except.ok ("arn:" ++ name))
          ⟨[], emptyTable⟩ "PLAN-001"
          { canary_size := none, batches := some [30, 30]
            health_check_interval_minutes := some 10
            rollback_threshold_percent := some 5
            estimated_duration_hours := some 6 }
          "TICKET-001" "client-a").2 = ⟨[], emptyTable⟩) :=
  ⟨Or.inl rfl,
    C6_invalid_plan_no_side_effects (fun name => Except.ok ("arn:" ++ name))
      ⟨[], emptyTable⟩ "PLAN-001"
      { canary_size := none, batches := some [30, 30]
        health_check_interval_minutes := some 10
        rollback_threshold_percent := some 5
        estimated_duration_hours := some 6 }
      "TICKET-001" "client-a" (Or.inl rfl)⟩

/-- Fields of the fallback plan computed by _generate_default_plan
(agent.py lines 204-218) from the device population size. -/
structure DefaultPlan where
  canary_size : Nat
  batches : List Nat
  health_check_interval_minutes : Nat
  rollback_threshold_percent : Nat
  estimated_duration_hours : Nat
deriving DecidableEq

/-- _generate_default_plan (agent.py lines 204-218): the fallback plan used
when Bedrock plan generation fails.  Python integer division and
subtraction; device_count - (device_count // 3) * 2 is nonnegative, so
natural subtraction agrees with Python. -/
def generate_default_plan (device_count : Nat) : DefaultPlan :=
  { canary_size := max 1 (device_count / 10)
    batches := [device_count / 3, device_count / 3,
      device_count - device_count / 3 * 2]
    health_check_interval_minutes := 10
    rollback_threshold_percent := 5
    estimated_duration_hours := 6 }

/-- Claim C7: for every nonempty device population the canary size of the
generated plan is clamped: it is at least 1, never exceeds the population
size, and equals clamp(canary_size, 1, population) of the size heuristic
device_count / 10. -/
theorem C7_canary_clamped (device_count : Nat) (h : 1 ≤ device_count) :
    1 ≤ (generate_default_plan device_count).canary_size ∧
    (generate_default_plan device_count).canary_size ≤ device_count ∧
    (generate_default_plan device_count).canary_size =
      min (max (device_count / 10) 1) device_count := by
  simp only [generate_default_plan]
  omega

/-- Witness for C7 at a concrete input: a population of 25 devices yields a
canary of 2 devices, within the clamp bounds. -/
theorem C7_witness :
    1 ≤ 25 ∧
    (1 ≤ (generate_default_plan 25).canary_size ∧
      (generate_default_plan 25).canary_size ≤ 25 ∧
      (generate_default_plan 25).canary_size = min (max (25 / 10) 1) 25) :=
  ⟨by decide, C7_canary_clamped 25 (by decide)⟩

/-- Claim C10: the three default batch sizes
[n / 3, n / 3, n - (n / 3) * 2] sum exactly to the device count, so the
default batching never drops or duplicates a device slot. -/
theorem C10_default_batches_cover (device_count : Nat) :
    (generate_default_plan device_count).batches.sum = device_count := by
  simp [generate_default_plan]
  omega

/-- Modelled from the spec: the Health Gate verdict (section 4.3); the
code's boolean proceed flag maps to proceed (true) and rollback (false). -/
inductive Verdict where
  | proceed
  | rollback
deriving DecidableEq

/-- Modelled from the spec: the states of the Run Controller state machine
(section 4.5).  The controller itself is an AWS Step Functions state
machine whose definition is not part of the repository source; only its
Lambda leaf tasks are (lambda_handler.py). -/
inductive RunState where
  | pending
  | running (i : Nat)
  | healthCheck (i : Nat)
  | rollingBack (i : Nat)
  | completed
  | failed
  | rolledBack
deriving DecidableEq

/-- Modelled from the spec: the transitions of the Run Controller over a
run with numStages stages whose Health Gate verdicts are given by the
verdicts environment (section 4.5, plus cooperative cancellation of a
RUNNING or HEALTH_CHECK run from section 5). -/
inductive RunStep (numStages : Nat) (verdicts : Nat → Verdict) :
    RunState → RunState → Prop where
  | start : RunStep numStages verdicts .pending (.running 0)
  | health (i : Nat) : RunStep numStages verdicts (.running i) (.healthCheck i)
  | advance (i : Nat) : verdicts i = .proceed → i + 1 < numStages →
      RunStep numStages verdicts (.healthCheck i) (.running (i + 1))
  | complete (i : Nat) : verdicts i = .proceed → numStages ≤ i + 1 →
      RunStep numStages verdicts (.healthCheck i) .completed
  | rollback (i : Nat) : verdicts i = .rollback →
      RunStep numStages verdicts (.healthCheck i) (.rollingBack i)
  | rolledBack (i : Nat) : RunStep numStages verdicts (.rollingBack i) .rolledBack
  | cancelRunning (i : Nat) : RunStep numStages verdicts (.running i) .failed
  | cancelHealthCheck (i : Nat) :
      RunStep numStages verdicts (.healthCheck i) .failed

/-- A Run Controller state reachable from the initial PENDING state. -/
def RunReachable (numStages : Nat) (verdicts : Nat → Verdict)
    (s : RunState) : Prop :=
  Relation.ReflTransGen (RunStep numStages verdicts) .pending s

/-- Gating invariant: while stage i is running or being health-checked,
every earlier stage's verdict was proceed. -/
def gateInv (verdicts : Nat → Verdict) : RunState → Prop
  | .running i => ∀ j, j < i → verdicts j = .proceed
  | .healthCheck i => ∀ j, j < i → verdicts j = .proceed
  | _ => True

theorem gateInv_step (numStages : Nat) (verdicts : Nat → Verdict)
    (s s' : RunState) (hstep : RunStep numStages verdicts s s')
    (hinv : gateInv verdicts s) : gateInv verdicts s' := by
  cases hstep with
  | start => exact fun j hj => absurd hj (Nat.not_lt_zero j)
  | health i => exact hinv
  | advance i hv hlt =>
    intro j hj
    rcases Nat.lt_succ_iff_lt_or_eq.mp hj with hlt2 | heq
    · exact hinv j hlt2
    · subst heq
      exact hv
  | complete i hv hle => trivial
  | rollback i hv => trivial
  | rolledBack i => trivial
  | cancelRunning i => trivial
  | cancelHealthCheck i => trivial

theorem gateInv_reachable (numStages : Nat) (verdicts : Nat → Verdict)
    (s : RunState) (h : RunReachable numStages verdicts s) :
    gateInv verdicts s := by
  induction h with
  | refl => trivial
  | tail hsteps hstep ih => exact gateInv_step numStages verdicts _ _ hstep ih

/-- Claim C8: in every reachable execution of the Run Controller, the
RUNNING(i+1) state is never entered unless stage i's health verdict was
proceed - a later stage never starts before the earlier stage has passed
its health gate. -/
theorem C8_monotonic_gating (numStages : Nat) (verdicts : Nat → Verdict)
    (i : Nat)
    (h : RunReachable numStages verdicts (.running (i + 1))) :
    verdicts i = .proceed :=
  gateInv_reachable numStages verdicts _ h i (Nat.lt_succ_self i)

/-- Witness for C8 at a concrete run: with 2 stages and all verdicts
proceed, RUNNING(1) is reachable, and the theorem yields stage 0's proceed
verdict. -/
theorem C8_witness :
    RunReachable 2 (fun _ => Verdict.proceed) (RunState.running 1) ∧
    (fun _ : Nat => Verdict.proceed) 0 = Verdict.proceed := by
  have hr : RunReachable 2 (fun _ => Verdict.proceed) (RunState.running 1) :=
    Relation.ReflTransGen.tail
      (Relation.ReflTransGen.tail
        (Relation.ReflTransGen.single RunStep.start)
        (RunStep.health 0))
      (RunStep.advance 0 rfl (by omega))
  exact ⟨hr, C8_monotonic_gating 2 (fun _ => Verdict.proceed) 0 hr⟩
